import Mathlib

/-!
Verification of the feature-flag microservice (`src/app.py`): a shallow
embedding of the in-memory flag store (`FLAGS`), its initialization from
configuration, and the HTTP request handlers, together with theorems about
the claims of the specification.
-/

set_option maxRecDepth 4000

namespace FeatureFlags

/-- A JSON value as handled by the service: Python `None`, booleans, integers,
strings, arrays and objects (objects are association lists with unique keys,
as produced by Python's JSON parser). -/
inductive JValue where
  | null : JValue
  | bool : Bool → JValue
  | num : Int → JValue
  | str : String → JValue
  | arr : List JValue → JValue
  | obj : List (String × JValue) → JValue

/-- Python truthiness of a JSON value (`bool(x)`): `None`, `False`, `0`, `""`,
`[]` and `\x7b\x7d` are falsy. -/
def isTruthy : JValue → Bool
  | .null => false
  | .bool b => b
  | .num n => n != 0
  | .str s => !s.isEmpty
  | .arr l => !l.isEmpty
  | .obj l => !l.isEmpty

/-- Python `str.lower()` (ASCII model): every character lowercased. -/
def pyLower (s : String) : String :=
  ⟨s.data.map Char.toLower⟩

/-- Python `str.strip()`: leading and trailing whitespace removed. -/
def pyStrip (s : String) : String :=
  ⟨((s.data.dropWhile Char.isWhitespace).reverse.dropWhile Char.isWhitespace).reverse⟩

/-- One escaped character of a Python string repr, given the enclosing quote
character `q`: backslash and the quote are escaped, as are newline, carriage
return and tab. -/
def pyCharEsc (q : Char) (c : Char) : String :=
  if c = '\\' then "\\\\"
  else if c = q then "\\" ++ String.singleton q
  else if c = '\n' then "\\n"
  else if c = '\r' then "\\r"
  else if c = '\t' then "\\t"
  else String.singleton c

/-- Python `repr` of a string: single-quoted, switching to double quotes when
the string holds a single quote but no double quote, with escapes. -/
def pyStrRepr (s : String) : String :=
  let q : Char := if s.contains '\x27' && !s.contains '"' then '"' else '\x27'
  String.singleton q ++ String.join (s.toList.map (pyCharEsc q)) ++ String.singleton q

mutual

/-- Python `repr` of a JSON value (`None`, `True`, `False`, decimal integers,
quoted strings, `[...]` lists and `\x7b...\x7d` dicts). -/
def pythonRepr : JValue → String
  | .null => "None"
  | .bool true => "True"
  | .bool false => "False"
  | .num n => toString n
  | .str s => pyStrRepr s
  | .arr l => "[" ++ reprElems l ++ "]"
  | .obj l => "\x7b" ++ reprPairs l ++ "\x7d"

/-- The comma-separated element reprs of a Python list. -/
def reprElems : List JValue → String
  | [] => ""
  | [v] => pythonRepr v
  | v :: w :: rest => pythonRepr v ++ ", " ++ reprElems (w :: rest)

/-- The comma-separated `key: value` reprs of a Python dict. -/
def reprPairs : List (String × JValue) → String
  | [] => ""
  | [(k, v)] => pyStrRepr k ++ ": " ++ pythonRepr v
  | (k, v) :: w :: rest => pyStrRepr k ++ ": " ++ pythonRepr v ++ ", " ++ reprPairs (w :: rest)

end

/-- Python `str()` of a JSON value: the identity on strings, `repr` on
everything else (`str(True) = "True"`, `str(123) = "123"`, ...). -/
def pythonStr : JValue → String
  | .str s => s
  | v => pythonRepr v

/-- The in-memory store `FLAGS`: a Python dict from flag name to value,
modelled as an association list in insertion order with unique keys. -/
abbrev Store := List (String × JValue)

/-- Python dict lookup `d.get(k)` / `k in d`. -/
def dictGet : Store → String → Option JValue
  | [], _ => none
  | (k0, v0) :: rest, k => if k0 = k then some v0 else dictGet rest k

/-- Python dict assignment `d[k] = v`: overwrites in place when the key is
present, otherwise appends at the end (insertion order). -/
def dictSet : Store → String → JValue → Store
  | [], k, v => [(k, v)]
  | (k0, v0) :: rest, k, v =>
      if k0 = k then (k0, v) :: rest else (k0, v0) :: dictSet rest k v

/-- `ALLOWED_MODES = \x7b"test", "production"\x7d` (src/app.py line 8). -/
def ALLOWED_MODES : List String := ["test", "production"]

/-- `ENVIRONMENT_FLAG_NAME = "environment_mode"` (src/app.py line 9). -/
def ENVIRONMENT_FLAG_NAME : String := "environment_mode"

/-- `_get_default_mode` (src/app.py lines 12-19): the configuration value of
`FEATURE_FLAG_DEFAULT_MODE` (`none` when unset) lowercased, falling back to
"test" when not an allowed mode. -/
def _get_default_mode (cfg : Option String) : String :=
  let env_mode := pyLower (cfg.getD "test")
  if env_mode ∈ ALLOWED_MODES then env_mode else "test"

/-- `_initialize_flags` (src/app.py lines 22-30): sets the environment flag
on the current store to the default mode. -/
def _initialize_flags (cfg : Option String) (flags : Store) : Store :=
  dictSet flags ENVIRONMENT_FLAG_NAME (.str (_get_default_mode cfg))

/-- The body of an inbound POST request as Flask sees it: `notJson` when the
content type is not JSON (`request.is_json` false), `badJson` when the content
type is JSON but the body does not parse (`request.get_json(silent=True)`
returns `None`), `json v` when it parses to `v`. -/
inductive Body where
  | notJson : Body
  | badJson : Body
  | json : JValue → Body

/-- `request.get_json(silent=True)`. -/
def getJsonSilent : Body → Option JValue
  | .json v => some v
  | _ => none

/-- Python `payload or \x7b\x7d` applied to the result of `get_json`: a `None`
or falsy payload is replaced by the empty dict. -/
def orEmptyDict : Option JValue → JValue
  | some v => if isTruthy v then v else .obj []
  | none => .obj []

/-- An HTTP response: a status code with an ordered JSON object body, or the
HTTP 500 page Flask produces for an unhandled exception (here: `payload.get`
raising AttributeError when the parsed JSON body is a truthy non-dict). -/
inductive HResp where
  | json : Nat → List (String × JValue) → HResp
  | serverError : HResp

/-- The status code of a response (Flask answers an unhandled exception
with 500). -/
def HResp.statusCode : HResp → Nat
  | .json code _ => code
  | .serverError => 500

/-- A field of a response's JSON object body. -/
def HResp.field : HResp → String → Option JValue
  | .json _ body, k => dictGet body k
  | .serverError, _ => none

/-- `health` (src/app.py lines 41-52): `GET /health`. -/
def health (flags : Store) : HResp :=
  .json 200
    [("status", .str "ok"),
     ("service", .str "feature-flag"),
     ("mode", (dictGet flags ENVIRONMENT_FLAG_NAME).getD (.str "test"))]

/-- `get_all_flags` (src/app.py lines 60-70): `GET /flags`. -/
def get_all_flags (flags : Store) : HResp :=
  .json 200 [("status", .str "ok"), ("flags", .obj flags)]

/-- `get_single_flag` (src/app.py lines 73-98): `GET /flags/<name>`. -/
def get_single_flag (flags : Store) (name : String) : HResp :=
  match dictGet flags name with
  | none =>
      .json 404
        [("status", .str "error"),
         ("message", .str ("flag '" ++ name ++ "' not found"))]
  | some v =>
      .json 200 [("status", .str "ok"), ("name", .str name), ("value", v)]

/-- `create_or_update_flag` (src/app.py lines 101-171): `POST /flags`.
Returns the response and the store after the request. -/
def create_or_update_flag (flags : Store) (body : Body) : HResp × Store :=
  match body with
  | .notJson =>
      (.json 400
        [("status", .str "error"),
         ("message", .str "expected JSON body with 'name' and 'value' fields")],
       flags)
  | _ =>
    match orEmptyDict (getJsonSilent body) with
    | .obj payload =>
      let name := pyStrip (pythonStr ((dictGet payload "name").getD (.str "")))
      let value := (dictGet payload "value").getD .null
      if name = "" then
        (.json 400
          [("status", .str "error"),
           ("message", .str "flag 'name' must be a non-empty string")],
         flags)
      else
        match value with
        | .null =>
            (.json 400
              [("status", .str "error"),
               ("message", .str "flag 'value' must be provided")],
             flags)
        | _ =>
          if name = ENVIRONMENT_FLAG_NAME then
            let mode_str := pyLower (pythonStr value)
            if mode_str ∈ ALLOWED_MODES then
              (.json 200
                [("status", .str "ok"), ("name", .str name), ("value", .str mode_str)],
               dictSet flags name (.str mode_str))
            else
              (.json 400
                [("status", .str "error"),
                 ("message", .str "invalid mode; environment_mode must be 'test' or 'production'")],
               flags)
          else
            (.json 200
              [("status", .str "ok"), ("name", .str name), ("value", value)],
             dictSet flags name value)
    | _ => (.serverError, flags)

/-- `get_mode` (src/app.py lines 179-185): `GET /mode`. -/
def get_mode (flags : Store) : HResp :=
  .json 200
    [("status", .str "ok"),
     ("mode", (dictGet flags ENVIRONMENT_FLAG_NAME).getD (.str "test"))]

/-- `set_mode` (src/app.py lines 188-221): `POST /mode`.
Returns the response and the store after the request. -/
def set_mode (flags : Store) (body : Body) : HResp × Store :=
  match body with
  | .notJson =>
      (.json 400
        [("status", .str "error"),
         ("message", .str "expected JSON body with a 'mode' field")],
       flags)
  | _ =>
    match orEmptyDict (getJsonSilent body) with
    | .obj payload =>
      let mode := pyStrip (pyLower (pythonStr ((dictGet payload "mode").getD (.str ""))))
      if mode ∈ ALLOWED_MODES then
        (.json 200 [("status", .str "ok"), ("mode", .str mode)],
         dictSet flags ENVIRONMENT_FLAG_NAME (.str mode))
      else
        (.json 400
          [("status", .str "error"),
           ("message", .str "invalid mode; must be 'test' or 'production'")],
         flags)
    | _ => (.serverError, flags)

/-- One inbound HTTP request handled by the router. -/
inductive Request where
  | getHealth : Request
  | getFlags : Request
  | getFlag : String → Request
  | postFlags : Body → Request
  | getMode : Request
  | postMode : Body → Request

/-- Dispatch a request to its handler: the response and the store after. -/
def handle (flags : Store) : Request → HResp × Store
  | .getHealth => (health flags, flags)
  | .getFlags => (get_all_flags flags, flags)
  | .getFlag name => (get_single_flag flags name, flags)
  | .postFlags body => create_or_update_flag flags body
  | .getMode => (get_mode flags, flags)
  | .postMode body => set_mode flags body

/-- The store after a sequence of handled requests. -/
def execReqs (flags : Store) : List Request → Store
  | [] => flags
  | r :: rest => execReqs (handle flags r).2 rest

/-- The environment-mode invariant: the store holds the key
`environment_mode` with value "test" or "production". -/
def modeOK (flags : Store) : Prop :=
  dictGet flags ENVIRONMENT_FLAG_NAME = some (.str "test") ∨
  dictGet flags ENVIRONMENT_FLAG_NAME = some (.str "production")

/-- Whether the string `pat` occurs as a contiguous substring of `s`. -/
def strContains (s pat : String) : Bool :=
  go s.toList
where
  go : List Char → Bool
    | [] => pat.toList.isPrefixOf []
    | c :: rest => pat.toList.isPrefixOf (c :: rest) || go rest

theorem dictGet_dictSet_self (s : Store) (k : String) (v : JValue) :
    dictGet (dictSet s k v) k = some v := by
  induction s with
  | nil => simp [dictGet, dictSet]
  | cons p rest ih =>
      obtain ⟨k0, v0⟩ := p
      by_cases h : k0 = k
      · simp [dictGet, dictSet, h]
      · simp [dictGet, dictSet, h, ih]

theorem dictGet_dictSet_ne (s : Store) (k k2 : String) (v : JValue)
    (h : k ≠ k2) : dictGet (dictSet s k v) k2 = dictGet s k2 := by
  induction s with
  | nil => simp [dictGet, dictSet, h]
  | cons p rest ih =>
      obtain ⟨k0, v0⟩ := p
      by_cases h0 : k0 = k
      · subst h0
        simp [dictGet, dictSet, h]
      · simp [dictGet, dictSet, h0, ih]

theorem dictSet_dictSet_self (s : Store) (k : String) (v w : JValue) :
    dictSet (dictSet s k v) k w = dictSet s k w := by
  induction s with
  | nil => simp [dictSet]
  | cons p rest ih =>
      obtain ⟨k0, v0⟩ := p
      by_cases h : k0 = k
      · simp [dictSet, h]
      · simp [dictSet, h, ih]

theorem initFlags_modeOK (cfg : Option String) (s : Store) :
    modeOK (_initialize_flags cfg s) := by
  unfold modeOK _initialize_flags
  rw [dictGet_dictSet_self]
  unfold _get_default_mode
  dsimp only
  split
  · rename_i h
    simp [ALLOWED_MODES] at h
    rcases h with h | h <;> simp [h]
  · simp

theorem create_or_update_flag_modeOK (s : Store) (b : Body)
    (h : modeOK s) : modeOK (create_or_update_flag s b).2 := by
  unfold create_or_update_flag
  split
  · exact h
  · split
    · dsimp only
      split
      · exact h
      · split
        · exact h
        · split
          · rename_i hname
            split
            · rename_i hmem
              simp [ALLOWED_MODES] at hmem
              unfold modeOK
              rw [hname]
              rcases hmem with hm | hm <;>
                simp [dictGet_dictSet_self, hm, modeOK]
            · exact h
          · rename_i hname
            unfold modeOK at h ⊢
            rw [dictGet_dictSet_ne]
            · exact h
            · exact hname
    · exact h

theorem set_mode_modeOK (s : Store) (b : Body)
    (h : modeOK s) : modeOK (set_mode s b).2 := by
  unfold set_mode
  split
  · exact h
  · split
    · dsimp only
      split
      · rename_i hmem
        simp [ALLOWED_MODES] at hmem
        unfold modeOK
        rcases hmem with hm | hm <;>
          simp [dictGet_dictSet_self, hm]
      · exact h
    · exact h

theorem handle_modeOK (s : Store) (r : Request)
    (h : modeOK s) : modeOK (handle s r).2 := by
  cases r with
  | getHealth => exact h
  | getFlags => exact h
  | getFlag name => exact h
  | postFlags b => exact create_or_update_flag_modeOK s b h
  | getMode => exact h
  | postMode b => exact set_mode_modeOK s b h

theorem execReqs_modeOK (s : Store) (rs : List Request)
    (h : modeOK s) : modeOK (execReqs s rs) := by
  induction rs generalizing s with
  | nil => exact h
  | cons r rest ih => exact ih _ (handle_modeOK s r h)

theorem orEmptyDict_obj (l : List (String × JValue)) :
    orEmptyDict (some (.obj l)) = .obj l := by
  cases l <;> simp [orEmptyDict, isTruthy]

/-- The default-mode rule in the spec's words: the configuration value
lowercased when it case-insensitively matches "test" or "production",
and "test" for every other value, including an unset one. -/
def specDefaultMode : Option String → String
  | none => "test"
  | some c => if pyLower c = "test" ∨ pyLower c = "production" then pyLower c else "test"

/-- C1: in every state reachable after initialization by any sequence of
handled requests, the store contains the key "environment_mode" with value
"test" or "production". -/
theorem C1_environment_mode_invariant (cfg : Option String) (s0 : Store)
    (rs : List Request) : modeOK (execReqs (_initialize_flags cfg s0) rs) :=
  execReqs_modeOK _ rs (initFlags_modeOK cfg s0)

/-- C2: for a valid mode m, after `POST /mode \x7bmode:m\x7d` the POST response,
`GET /mode`, `GET /flags/environment_mode` and `GET /health` all report
mode m — the views never disagree. -/
theorem C2_mode_views_agree (s : Store) (m : String)
    (h : m = "test" ∨ m = "production") :
    (set_mode s (.json (.obj [("mode", .str m)]))).1
        = .json 200 [("status", .str "ok"), ("mode", .str m)] ∧
    get_mode (set_mode s (.json (.obj [("mode", .str m)]))).2
        = .json 200 [("status", .str "ok"), ("mode", .str m)] ∧
    get_single_flag (set_mode s (.json (.obj [("mode", .str m)]))).2 "environment_mode"
        = .json 200 [("status", .str "ok"), ("name", .str "environment_mode"),
                     ("value", .str m)] ∧
    health (set_mode s (.json (.obj [("mode", .str m)]))).2
        = .json 200 [("status", .str "ok"), ("service", .str "feature-flag"),
                     ("mode", .str m)] := by
  have hset : ∀ m2 : String, m2 = "test" ∨ m2 = "production" →
      (set_mode s (.json (.obj [("mode", .str m2)]))).2
        = dictSet s ENVIRONMENT_FLAG_NAME (.str m2) := by
    rintro m2 (rfl | rfl) <;> rfl
  rcases h with rfl | rfl <;>
    refine ⟨rfl, ?_, ?_, ?_⟩ <;>
    rw [hset _ (by simp)] <;>
    simp [get_mode, get_single_flag, health, ENVIRONMENT_FLAG_NAME,
      dictGet_dictSet_self]

theorem C2_mode_views_agree_witness :
    (("production" : String) = "test" ∨ ("production" : String) = "production") ∧
    ((set_mode [] (.json (.obj [("mode", .str "production")]))).1
        = .json 200 [("status", .str "ok"), ("mode", .str "production")] ∧
    get_mode (set_mode [] (.json (.obj [("mode", .str "production")]))).2
        = .json 200 [("status", .str "ok"), ("mode", .str "production")] ∧
    get_single_flag (set_mode [] (.json (.obj [("mode", .str "production")]))).2
        "environment_mode"
        = .json 200 [("status", .str "ok"), ("name", .str "environment_mode"),
                     ("value", .str "production")] ∧
    health (set_mode [] (.json (.obj [("mode", .str "production")]))).2
        = .json 200 [("status", .str "ok"), ("service", .str "feature-flag"),
                     ("mode", .str "production")]) :=
  ⟨Or.inr rfl, C2_mode_views_agree [] "production" (Or.inr rfl)⟩

/-- C3, counterexample: `_initialize_flags` does not clear the store, so an
entry under another key written before the call survives it. -/
theorem C3_counterexample :
    dictGet (_initialize_flags none [("enable_new_layout", .bool true)])
        "enable_new_layout" = some (.bool true) ∧
    "enable_new_layout" ≠ ENVIRONMENT_FLAG_NAME :=
  ⟨rfl, by decide⟩

/-- C3, amended: `_initialize_flags` is idempotent and overwrites the
environment-mode entry with the seeded default, but it leaves every other
key's mapping unchanged rather than removing it. -/
theorem C3_initialize_idempotent (cfg : Option String) (s0 : Store) :
    _initialize_flags cfg (_initialize_flags cfg s0) = _initialize_flags cfg s0 ∧
    dictGet (_initialize_flags cfg s0) ENVIRONMENT_FLAG_NAME
      = some (.str (_get_default_mode cfg)) ∧
    ∀ k, k ≠ ENVIRONMENT_FLAG_NAME →
      dictGet (_initialize_flags cfg s0) k = dictGet s0 k := by
  refine ⟨dictSet_dictSet_self s0 _ _ _, dictGet_dictSet_self s0 _ _, ?_⟩
  intro k hk
  exact dictGet_dictSet_ne s0 _ k _ (Ne.symm hk)

theorem C3_initialize_idempotent_witness :
    _initialize_flags (some "PRODUCTION")
        (_initialize_flags (some "PRODUCTION") [("x", .num 1)])
      = _initialize_flags (some "PRODUCTION") [("x", .num 1)] ∧
    dictGet (_initialize_flags (some "PRODUCTION") [("x", .num 1)])
        ENVIRONMENT_FLAG_NAME
      = some (.str (_get_default_mode (some "PRODUCTION"))) ∧
    dictGet (_initialize_flags (some "PRODUCTION") [("x", .num 1)]) "x"
      = dictGet [("x", .num 1)] "x" :=
  ⟨(C3_initialize_idempotent (some "PRODUCTION") [("x", .num 1)]).1,
   (C3_initialize_idempotent (some "PRODUCTION") [("x", .num 1)]).2.1,
   (C3_initialize_idempotent (some "PRODUCTION") [("x", .num 1)]).2.2 "x" (by decide)⟩

/-- C4, counterexample: when the content type is JSON but the body does not
parse, `POST /flags` answers 400 with the missing-name message, which does
not mention the expected shape (it does not contain "value"). -/
theorem C4_counterexample :
    (create_or_update_flag [] .badJson).1
      = .json 400 [("status", .str "error"),
                   ("message", .str "flag 'name' must be a non-empty string")] ∧
    strContains "flag 'name' must be a non-empty string" "value" = false :=
  ⟨rfl, by decide⟩

/-- C4, amended: a `POST /flags` whose body is not valid JSON content is
answered 400 with the store unchanged; the message indicates the expected
shape when the content type is not JSON, while an unparseable JSON body is
treated as an empty payload and draws the missing-name message. -/
theorem C4_bad_body_rejected (s : Store) (b : Body)
    (h : b = .notJson ∨ b = .badJson) :
    (create_or_update_flag s b).1.statusCode = 400 ∧
    (create_or_update_flag s b).2 = s ∧
    (create_or_update_flag s .notJson).1.field "message"
      = some (.str "expected JSON body with 'name' and 'value' fields") ∧
    (create_or_update_flag s .badJson).1.field "message"
      = some (.str "flag 'name' must be a non-empty string") := by
  rcases h with rfl | rfl <;> exact ⟨rfl, rfl, rfl, rfl⟩

theorem C4_bad_body_rejected_witness :
    ((Body.notJson = Body.notJson ∨ Body.notJson = Body.badJson) ∧
    (create_or_update_flag [] .notJson).1.statusCode = 400 ∧
    (create_or_update_flag [] .notJson).2 = [] ∧
    (create_or_update_flag [] .notJson).1.field "message"
      = some (.str "expected JSON body with 'name' and 'value' fields") ∧
    (create_or_update_flag [] .badJson).1.field "message"
      = some (.str "flag 'name' must be a non-empty string")) :=
  ⟨Or.inl rfl, C4_bad_body_rejected [] .notJson (Or.inl rfl)⟩

/-- C5: with a valid name, `POST /flags` answers 400 mentioning "value" and
leaves the store unchanged exactly when the payload's value is missing or
null, while a value of boolean false or number 0 never draws the
missing-value error. -/
theorem C5_value_only_true_absence (s : Store) (payload : List (String × JValue))
    (hname : pyStrip (pythonStr ((dictGet payload "name").getD (.str ""))) ≠ "") :
    ((dictGet payload "value").getD .null = .null →
      (create_or_update_flag s (.json (.obj payload))).1
        = .json 400 [("status", .str "error"),
                     ("message", .str "flag 'value' must be provided")] ∧
      strContains "flag 'value' must be provided" "value" = true ∧
      (create_or_update_flag s (.json (.obj payload))).2 = s) ∧
    (∀ v, dictGet payload "value" = some v → (v = .bool false ∨ v = .num 0) →
      (create_or_update_flag s (.json (.obj payload))).1.field "message"
        ≠ some (.str "flag 'value' must be provided")) := by
  constructor
  · intro hval
    simp only [create_or_update_flag, getJsonSilent]
    rw [orEmptyDict_obj]
    dsimp only
    rw [if_neg hname, hval]
    exact ⟨rfl, by decide, rfl⟩
  · intro v hv hfv
    simp only [create_or_update_flag, getJsonSilent]
    rw [orEmptyDict_obj]
    dsimp only
    rw [if_neg hname, hv]
    rcases hfv with rfl | rfl <;>
    · dsimp only [Option.getD]
      split
      · rw [if_neg (by decide)]
        simp [HResp.field, dictGet]
      · simp [HResp.field, dictGet]

theorem C5_value_only_true_absence_witness :
    ((create_or_update_flag [] (.json (.obj [("name", .str "f")]))).1
        = .json 400 [("status", .str "error"),
                     ("message", .str "flag 'value' must be provided")] ∧
      strContains "flag 'value' must be provided" "value" = true ∧
      (create_or_update_flag [] (.json (.obj [("name", .str "f")]))).2 = []) ∧
    (create_or_update_flag []
        (.json (.obj [("name", .str "f"), ("value", .bool false)]))).1.field "message"
      ≠ some (.str "flag 'value' must be provided") :=
  ⟨(C5_value_only_true_absence [] [("name", .str "f")] (by decide)).1 rfl,
   (C5_value_only_true_absence [] [("name", .str "f"), ("value", .bool false)]
      (by decide)).2 (.bool false) rfl (Or.inl rfl)⟩

/-- C6: `POST /mode` with a mode whose lowercased, stripped form is not an
allowed mode answers 400 with a message containing "invalid mode" and leaves
the store (hence the stored environment mode) exactly as before. -/
theorem C6_invalid_mode_rejected (s : Store) (m : String)
    (h : pyStrip (pyLower m) ∉ ALLOWED_MODES) :
    (set_mode s (.json (.obj [("mode", .str m)]))).1
      = .json 400 [("status", .str "error"),
                   ("message", .str "invalid mode; must be 'test' or 'production'")] ∧
    strContains "invalid mode; must be 'test' or 'production'" "invalid mode" = true ∧
    (set_mode s (.json (.obj [("mode", .str m)]))).2 = s := by
  have hred : set_mode s (.json (.obj [("mode", .str m)]))
      = if pyStrip (pyLower m) ∈ ALLOWED_MODES
        then (.json 200 [("status", .str "ok"), ("mode", .str (pyStrip (pyLower m)))],
              dictSet s ENVIRONMENT_FLAG_NAME (.str (pyStrip (pyLower m))))
        else (.json 400 [("status", .str "error"),
                ("message", .str "invalid mode; must be 'test' or 'production'")],
              s) := rfl
  rw [hred, if_neg h]
  exact ⟨rfl, by decide, rfl⟩

theorem C6_invalid_mode_rejected_witness :
    pyStrip (pyLower "prod") ∉ ALLOWED_MODES ∧
    ((set_mode [("environment_mode", .str "test")]
        (.json (.obj [("mode", .str "prod")]))).1
      = .json 400 [("status", .str "error"),
                   ("message", .str "invalid mode; must be 'test' or 'production'")] ∧
    strContains "invalid mode; must be 'test' or 'production'" "invalid mode" = true ∧
    (set_mode [("environment_mode", .str "test")]
        (.json (.obj [("mode", .str "prod")]))).2
      = [("environment_mode", .str "test")]) :=
  ⟨by decide,
   C6_invalid_mode_rejected [("environment_mode", .str "test")] "prod" (by decide)⟩

/-- C7: initialization stores under "environment_mode", overwriting any prior
value, the configuration value lowercased when it case-insensitively matches
an allowed mode, and "test" for every other (or unset) configuration. -/
theorem C7_initialize_seeds_default (cfg : Option String) (s : Store) :
    dictGet (_initialize_flags cfg s) ENVIRONMENT_FLAG_NAME
      = some (.str (specDefaultMode cfg)) := by
  unfold _initialize_flags
  rw [dictGet_dictSet_self]
  suffices hmode : _get_default_mode cfg = specDefaultMode cfg by rw [hmode]
  cases cfg with
  | none => rfl
  | some c =>
      unfold _get_default_mode specDefaultMode
      dsimp only [Option.getD]
      have hiff : (pyLower c ∈ ALLOWED_MODES)
          ↔ (pyLower c = "test" ∨ pyLower c = "production") := by
        simp [ALLOWED_MODES]
      by_cases hc : pyLower c = "test" ∨ pyLower c = "production"
      · rw [if_pos (hiff.mpr hc), if_pos hc]
      · rw [if_neg (fun hmem => hc (hiff.mp hmem)), if_neg hc]

theorem create_or_update_flag_obj_spec (s : Store) (payload : List (String × JValue)) :
    (∃ msg, create_or_update_flag s (.json (.obj payload))
        = (.json 400 [("status", .str "error"), ("message", .str msg)], s)) ∨
    (∃ w, create_or_update_flag s (.json (.obj payload))
        = (.json 200 [("status", .str "ok"),
             ("name", .str (pyStrip (pythonStr ((dictGet payload "name").getD (.str ""))))),
             ("value", w)],
           dictSet s (pyStrip (pythonStr ((dictGet payload "name").getD (.str "")))) w)) := by
  simp only [create_or_update_flag, getJsonSilent]
  rw [orEmptyDict_obj]
  dsimp only
  split
  · exact Or.inl ⟨_, rfl⟩
  · split
    · exact Or.inl ⟨_, rfl⟩
    · split
      · split
        · exact Or.inr ⟨_, rfl⟩
        · exact Or.inl ⟨_, rfl⟩
      · exact Or.inr ⟨_, rfl⟩

/-- C8, counterexample: the whitespace-only name " " is non-empty and not
"environment_mode", yet `POST /flags` rejects it with 400 because the name
is stripped before validation. -/
theorem C8_counterexample :
    (" " : String) ≠ "" ∧ (" " : String) ≠ ENVIRONMENT_FLAG_NAME ∧
    (create_or_update_flag []
        (.json (.obj [("name", .str " "), ("value", .bool true)]))).1.statusCode
      = 400 ∧
    (create_or_update_flag []
        (.json (.obj [("name", .str " "), ("value", .bool true)]))).1.statusCode
      ≠ 200 :=
  ⟨by decide, by decide, rfl, by decide⟩

/-- C8, amended: for a name equal to its own stripped form, non-empty and
other than "environment_mode", and non-null values, `POST /flags` answers
200 and stores the value; a later `GET /flags/\x7bn\x7d` returns it, a second
write wins, and repeating the identical write leaves the store unchanged. -/
theorem C8_flag_roundtrip (s : Store) (n : String) (v v2 : JValue)
    (hn : pyStrip n = n) (hne : n ≠ "") (henv : n ≠ ENVIRONMENT_FLAG_NAME)
    (hv : v ≠ .null) (hv2 : v2 ≠ .null) :
    create_or_update_flag s (.json (.obj [("name", .str n), ("value", v)]))
      = (.json 200 [("status", .str "ok"), ("name", .str n), ("value", v)],
         dictSet s n v) ∧
    get_single_flag
        (create_or_update_flag s (.json (.obj [("name", .str n), ("value", v)]))).2 n
      = .json 200 [("status", .str "ok"), ("name", .str n), ("value", v)] ∧
    get_single_flag
        (create_or_update_flag
          (create_or_update_flag s (.json (.obj [("name", .str n), ("value", v)]))).2
          (.json (.obj [("name", .str n), ("value", v2)]))).2 n
      = .json 200 [("status", .str "ok"), ("name", .str n), ("value", v2)] ∧
    (create_or_update_flag
        (create_or_update_flag s (.json (.obj [("name", .str n), ("value", v)]))).2
        (.json (.obj [("name", .str n), ("value", v)]))).2
      = (create_or_update_flag s (.json (.obj [("name", .str n), ("value", v)]))).2 := by
  have hmain : ∀ (t : Store) (w : JValue), w ≠ .null →
      create_or_update_flag t (.json (.obj [("name", .str n), ("value", w)]))
        = (.json 200 [("status", .str "ok"), ("name", .str n), ("value", w)],
           dictSet t n w) := by
    intro t w hw
    simp only [create_or_update_flag, getJsonSilent]
    rw [orEmptyDict_obj]
    dsimp only
    simp [dictGet, Option.getD, pythonStr]
    rw [hn, if_neg hne]
    cases w with
    | null => exact absurd rfl hw
    | bool b => rw [if_neg henv]
    | num x => rw [if_neg henv]
    | str x => rw [if_neg henv]
    | arr x => rw [if_neg henv]
    | obj x => rw [if_neg henv]
  refine ⟨hmain s v hv, ?_, ?_, ?_⟩
  · rw [hmain s v hv]
    simp [get_single_flag, dictGet_dictSet_self]
  · rw [hmain s v hv, hmain (dictSet s n v) v2 hv2]
    simp [get_single_flag, dictGet_dictSet_self]
  · rw [hmain s v hv, hmain (dictSet s n v) v hv]
    exact dictSet_dictSet_self s n v v

theorem C8_flag_roundtrip_witness :
    (pyStrip "enable_new_layout" = "enable_new_layout" ∧
     "enable_new_layout" ≠ "" ∧
     "enable_new_layout" ≠ ENVIRONMENT_FLAG_NAME) ∧
    create_or_update_flag []
        (.json (.obj [("name", .str "enable_new_layout"), ("value", .bool true)]))
      = (.json 200 [("status", .str "ok"), ("name", .str "enable_new_layout"),
                    ("value", .bool true)],
         dictSet [] "enable_new_layout" (.bool true)) ∧
    get_single_flag
        (create_or_update_flag []
          (.json (.obj [("name", .str "enable_new_layout"),
                        ("value", .bool true)]))).2 "enable_new_layout"
      = .json 200 [("status", .str "ok"), ("name", .str "enable_new_layout"),
                   ("value", .bool true)] :=
  ⟨⟨by decide, by decide, by decide⟩,
   (C8_flag_roundtrip [] "enable_new_layout" (.bool true) (.num 2)
      (by decide) (by decide) (by decide) (by simp) (by simp)).1,
   (C8_flag_roundtrip [] "enable_new_layout" (.bool true) (.num 2)
      (by decide) (by decide) (by decide) (by simp) (by simp)).2.1⟩

/-- C9: a `POST /flags` touches at most the key it targets (the coerced,
stripped name) and a `POST /mode` touches at most "environment_mode"; every
other key's mapping is unchanged by the request. -/
theorem C9_write_frame (s : Store) (payload : List (String × JValue))
    (b : Body) (k : String) :
    (k ≠ pyStrip (pythonStr ((dictGet payload "name").getD (.str ""))) →
      dictGet (create_or_update_flag s (.json (.obj payload))).2 k = dictGet s k) ∧
    (k ≠ ENVIRONMENT_FLAG_NAME →
      dictGet (set_mode s b).2 k = dictGet s k) := by
  constructor
  · intro hk
    rcases create_or_update_flag_obj_spec s payload with ⟨msg, heq⟩ | ⟨w, heq⟩
    · rw [heq]
    · rw [heq]
      exact dictGet_dictSet_ne s _ k w (Ne.symm hk)
  · intro hk
    unfold set_mode
    split
    · rfl
    · split
      · dsimp only
        split
        · exact dictGet_dictSet_ne s _ k _ (Ne.symm hk)
        · rfl
      · rfl

theorem C9_write_frame_witness :
    ("other_flag" ≠ pyStrip (pythonStr
        ((dictGet [("name", .str "b"), ("value", .num 2)] "name").getD (.str ""))) ∧
      dictGet (create_or_update_flag [("other_flag", .num 1)]
          (.json (.obj [("name", .str "b"), ("value", .num 2)]))).2 "other_flag"
        = dictGet [("other_flag", .num 1)] "other_flag") ∧
    ("other_flag" ≠ ENVIRONMENT_FLAG_NAME ∧
      dictGet (set_mode [("other_flag", .num 1)]
          (.json (.obj [("mode", .str "production")]))).2 "other_flag"
        = dictGet [("other_flag", .num 1)] "other_flag") :=
  ⟨⟨by decide,
    (C9_write_frame [("other_flag", .num 1)] [("name", .str "b"), ("value", .num 2)]
      (.json (.obj [("mode", .str "production")])) "other_flag").1 (by decide)⟩,
   ⟨by decide,
    (C9_write_frame [("other_flag", .num 1)] [("name", .str "b"), ("value", .num 2)]
      (.json (.obj [("mode", .str "production")])) "other_flag").2 (by decide)⟩⟩

/-- C10: on every successful `POST /flags`, the key written and the name
echoed in the 200 response are the stripped string coercion of the supplied
name (so a numeric name 123 lands under "123" and "  x  " under "x"). -/
theorem C10_name_coercion (s : Store) (payload : List (String × JValue))
    (h : (create_or_update_flag s (.json (.obj payload))).1.statusCode = 200) :
    (create_or_update_flag s (.json (.obj payload))).1.field "name"
      = some (.str (pyStrip (pythonStr ((dictGet payload "name").getD (.str ""))))) ∧
    dictGet (create_or_update_flag s (.json (.obj payload))).2
        (pyStrip (pythonStr ((dictGet payload "name").getD (.str ""))))
      = (create_or_update_flag s (.json (.obj payload))).1.field "value" := by
  rcases create_or_update_flag_obj_spec s payload with ⟨msg, heq⟩ | ⟨w, heq⟩
  · rw [heq] at h
    simp [HResp.statusCode] at h
  · rw [heq]
    constructor
    · simp [HResp.field, dictGet]
    · rw [dictGet_dictSet_self]
      simp [HResp.field, dictGet]

theorem C10_name_coercion_witness :
    ((create_or_update_flag []
        (.json (.obj [("name", .num 123), ("value", .bool true)]))).1.statusCode = 200 ∧
      (create_or_update_flag []
        (.json (.obj [("name", .num 123), ("value", .bool true)]))).1.field "name"
        = some (.str (pyStrip (pythonStr
            ((dictGet [("name", .num 123), ("value", .bool true)] "name").getD
              (.str ""))))) ∧
      dictGet (create_or_update_flag []
          (.json (.obj [("name", .num 123), ("value", .bool true)]))).2 "123"
        = some (.bool true)) ∧
    ((create_or_update_flag []
        (.json (.obj [("name", .str "  x  "), ("value", .num 7)]))).1.field "name"
        = some (.str "x")) := by
  have h1 := C10_name_coercion [] [("name", .num 123), ("value", .bool true)] (by decide)
  have h2 := C10_name_coercion [] [("name", .str "  x  "), ("value", .num 7)] (by decide)
  exact ⟨⟨by decide, h1.1, by rfl⟩, h2.1.trans (by rfl)⟩

end FeatureFlags
